import Mathlib

/-
  Verification of the orbit-propagation and measurement-modeling core of
  gnss_lib_py (src/gnss_lib_py/core/measures.py and
  src/gnss_lib_py/utils/gnss_models.py).

  The Python code is shallowly embedded: float arithmetic is modelled over
  the real numbers (over the rationals where only ring operations and
  comparisons occur, so that concrete evaluation is possible), numpy arrays
  over one axis become lists with elementwise operations, and pandas tables
  that a function mutates are threaded as explicit state.
-/

namespace GnssLibPy

/-! ### Physical constants

The module core/constants.py is not part of the sources under review, so
the constants are modelled from the spec (speed of light, carrier
frequency, Earth rotation rate, gravitational parameter, relativistic
clock constant, nominal transit time), with their standard GPS values. -/

/-- Modelled from the spec: speed of light [m/s] (GPSConsts.C, constants.py
absent from src). -/
def C_gps : ℝ := 299792458

/-- Modelled from the spec: GPS L1 carrier frequency [Hz] (GPSConsts.F1). -/
def F1_gps : ℝ := 1.57542e9

/-- Modelled from the spec: Earth rotation rate [rad/s] (GPSConsts.OMEGAEDOT). -/
def OMEGAEDOT : ℝ := 7.2921151467e-5

/-- Modelled from the spec: Earth gravitational parameter [m^3/s^2]
(GPSConsts.MUEARTH). -/
def MUEARTH : ℝ := 398600.5e9

/-- Modelled from the spec: relativistic clock correction constant
(GPSConsts.F). -/
def F_const : ℝ := -4.442807633e-10

/-- Modelled from the spec: nominal signal transit time [s]
(GPSConsts.T_TRANS). -/
def T_TRANS : ℝ := 0.07

/-! ### Week rollover handling in find_sat (core/measures.py, lines 350 and 363)

The source computes
  gpsweek_diff = np.mod(gpsweek,1024) - np.mod(ephem[GPSWeek],1024)*604800.
  dt = times - ephem[t_oe] + gpsweek_diff
np.mod with a positive divisor returns a value in [0, 1024), matching
Int.emod.  Week numbers are integers and the arithmetic is exact, so this
part is embedded over the rationals. -/

/-- Embeds line 350 of core/measures.py exactly as written: the factor
604800 multiplies only the second modulus. -/
def gpsweek_diff (gpsweek gpsweek_ephem : ℤ) : ℚ :=
  ((gpsweek % 1024 : ℤ) : ℚ) - ((gpsweek_ephem % 1024 : ℤ) : ℚ) * 604800

/-- Modelled from the spec: the week difference reduced modulo 1024 and
converted to seconds, i.e. the difference of the two moduli times 604800. -/
def gpsweek_diff_spec (gpsweek gpsweek_ephem : ℤ) : ℚ :=
  (((gpsweek % 1024 : ℤ) : ℚ) - ((gpsweek_ephem % 1024 : ℤ) : ℚ)) * 604800

/-- Embeds line 363 of core/measures.py: the elapsed time since the
ephemeris reference epoch used by the propagator. -/
def elapsed_dt (times t_oe : ℚ) (gpsweek gpsweek_ephem : ℤ) : ℚ :=
  times - t_oe + gpsweek_diff gpsweek gpsweek_ephem

/-- The elapsed time as the claim states it. -/
def elapsed_dt_spec (times t_oe : ℚ) (gpsweek gpsweek_ephem : ℤ) : ℚ :=
  times - t_oe + gpsweek_diff_spec gpsweek gpsweek_ephem

/-! ### The half-week wrap of time offsets (core/measures.py lines 516-518 and
529-531; utils/gnss_models.py lines 459-461)

The source guards the wrap with
  if np.abs(t_offset).any() > 302400:
np.abs(t_offset).any() is a boolean (true exactly when some entry is
nonzero); Python compares it to 302400 as the number 1 or 0. -/

/-- np.sign on a rational. -/
def np_sign (x : ℚ) : ℚ :=
  if x > 0 then 1 else if x < 0 then -1 else 0

/-- np.abs(l).any(): true exactly when some entry has nonzero absolute
value. -/
def np_abs_any (l : List ℚ) : Bool :=
  l.any (fun x => decide (|x| ≠ 0))

/-- A Python boolean used in arithmetic context: True is 1, False is 0. -/
def py_bool_to_rat (b : Bool) : ℚ :=
  if b then 1 else 0

/-- Embeds the guarded wrap of a time-offset array, exactly as the source
writes it: the whole array is wrapped when the boolean np.abs(l).any(),
read as 0 or 1, exceeds 302400. -/
def t_offset_wrapped (l : List ℚ) : List ℚ :=
  if py_bool_to_rat (np_abs_any l) > 302400 then
    l.map (fun d => d - np_sign d * 604800)
  else l

/-- Modelled from the spec: the intended elementwise half-week wrap,
subtracting sign(dt) * 604800 whenever the magnitude of dt exceeds
302400 s. -/
def t_offset_wrap_spec (d : ℚ) : ℚ :=
  if |d| > 302400 then d - np_sign d * 604800 else d

/-! ### Kepler solver (core/measures.py, _compute_eccentric_anomoly,
lines 703-734)

The solver runs a fixed 10-step Newton-Raphson loop, vectorized over
arrays of mean anomalies and eccentricities.  Arrays are embedded as lists
with numpy elementwise operations. -/

/-- Elementwise subtraction of two arrays. -/
noncomputable def np_sub (a b : List ℝ) : List ℝ := List.zipWith (fun x y => x - y) a b

/-- Elementwise addition of two arrays. -/
noncomputable def np_add (a b : List ℝ) : List ℝ := List.zipWith (fun x y => x + y) a b

/-- Elementwise multiplication of two arrays. -/
noncomputable def np_mul (a b : List ℝ) : List ℝ := List.zipWith (fun x y => x * y) a b

/-- Elementwise division of two arrays. -/
noncomputable def np_div (a b : List ℝ) : List ℝ := List.zipWith (fun x y => x / y) a b

/-- Elementwise negation of an array. -/
noncomputable def np_neg (a : List ℝ) : List ℝ := a.map (fun x => -x)

/-- Subtraction of a scalar from an array. -/
noncomputable def np_sub_scalar (a : List ℝ) (c : ℝ) : List ℝ := a.map (fun x => x - c)

/-- One satellite of the Newton-Raphson loop body, producing (E, dE) after
n iterations from the start value E0 = M:
  f = M - E + e*sin(E); dfdE = e*cos(E) - 1; dE = -f/dfdE; E = E + dE. -/
noncomputable def kepler_iter (M e : ℝ) : ℕ → ℝ × ℝ
  | 0 => (M, 0)
  | n + 1 =>
    let E := (kepler_iter M e n).1
    let f := M - E + e * Real.sin E
    let dfdE := e * Real.cos E - 1
    let dE := -f / dfdE
    (E + dE, dE)

/-- The scalar eccentric-anomaly solve: E after the fixed 10 iterations. -/
noncomputable def compute_ecc_scalar (M e : ℝ) : ℝ := (kepler_iter M e 10).1

/-- The vectorized Newton-Raphson loop of _compute_eccentric_anomoly,
with the numpy elementwise operations written out; returns the arrays
(E, dE) after n iterations. -/
noncomputable def kepler_vec_iter (Ms es : List ℝ) : ℕ → List ℝ × List ℝ
  | 0 => (Ms, Ms.map (fun _ => 0))
  | n + 1 =>
    let Es := (kepler_vec_iter Ms es n).1
    let f := np_add (np_sub Ms Es) (np_mul es (Es.map Real.sin))
    let dfdE := np_sub_scalar (np_mul es (Es.map Real.cos)) 1
    let dE := np_div (np_neg f) dfdE
    (np_add Es dE, dE)

/-- The claimed Newton step: E + (M - E + e*sin(E)) / (1 - e*cos(E)),
written as the claim words it. -/
noncomputable def kepler_claim_step (M e E : ℝ) : ℝ :=
  E + (M - E + e * Real.sin E) / (1 - e * Real.cos E)

/-- The convergence test at line 731 of core/measures.py, exactly as
written: any(dE > tol) with tol = 1e-5, a signed comparison. -/
def newton_warn_cond (dEs : List ℝ) : Prop :=
  ∃ d ∈ dEs, d > 1e-5

/-- The warning condition as the claim words it: the magnitude of some
final step exceeds the tolerance. -/
def newton_warn_claimed (dEs : List ℝ) : Prop :=
  ∃ d ∈ dEs, |d| > 1e-5

/-- The full _compute_eccentric_anomoly: the eccentric-anomaly array
after 10 iterations, paired with whether the convergence warning is
printed; the array is returned in either case (the warning is a print,
not an exception). -/
noncomputable def compute_eccentric_anomoly (Ms es : List ℝ) : List ℝ × Prop :=
  ((kepler_vec_iter Ms es 10).1, newton_warn_cond (kepler_vec_iter Ms es 10).2)

/-! ### Orbit propagator find_sat (core/measures.py, lines 293-455)

One ephemeris record per satellite; the propagated state carries ECEF
position and velocity.  Reference times and week numbers are exact float
values, kept rational; everything trigonometric is real. -/

/-- One broadcast ephemeris record (the fields of the ephemeris DataFrame
used by the core). -/
structure EphemRec where
  e : ℝ
  sqrtA : ℝ
  M_0 : ℝ
  deltaN : ℝ
  omega : ℝ
  Omega_0 : ℝ
  OmegaDot : ℝ
  i_0 : ℝ
  IDOT : ℝ
  C_is : ℝ
  C_ic : ℝ
  C_rs : ℝ
  C_rc : ℝ
  C_uc : ℝ
  C_us : ℝ
  t_oe : ℚ
  GPSWeek : ℤ
  SVclockBias : ℝ
  SVclockDrift : ℝ
  SVclockDriftRate : ℝ
  TGD : ℝ
  t_oc : ℚ

/-- One row of the satellite position/velocity DataFrame. -/
structure SatPV where
  x : ℝ
  y : ℝ
  z : ℝ
  vx : ℝ
  vy : ℝ
  vz : ℝ

/-- numpy arctan2(y, x). -/
noncomputable def np_arctan2 (y x : ℝ) : ℝ :=
  if x > 0 then Real.arctan (y / x)
  else if x < 0 then
    (if y ≥ 0 then Real.arctan (y / x) + Real.pi
     else Real.arctan (y / x) - Real.pi)
  else
    (if y > 0 then Real.pi / 2 else if y < 0 then -(Real.pi / 2) else 0)

/-- The 5-iteration argument-of-latitude refinement (lines 383-388):
phi(k+1) = phi_0 + C_uc*cos(2 phi(k)) + C_us*sin(2 phi(k)). -/
noncomputable def phi_refine (eph : EphemRec) (phi_0 : ℝ) : ℕ → ℝ
  | 0 => phi_0
  | k + 1 =>
    let phi := phi_refine eph phi_0 k
    phi_0 + (eph.C_uc * Real.cos (2 * phi) + eph.C_us * Real.sin (2 * phi))

/-- Embeds find_sat for one satellite: ephemeris to ECEF position and
velocity at clock time `times` (seconds of week `gpsweek`).  Follows
lines 330-455 of core/measures.py; the final trig values cos_to_phi and
sin_to_phi left by the refinement loop are those of the 4th iterate,
while phi itself is the 5th iterate, exactly as in the Python loop. -/
noncomputable def find_sat (eph : EphemRec) (times : ℝ) (gpsweek : ℤ) : SatPV :=
  let sma := eph.sqrtA ^ 2
  let sqrt_mu_A := Real.sqrt MUEARTH * eph.sqrtA ^ (-3 : ℤ)
  let gw_diff : ℝ := ((gpsweek_diff gpsweek eph.GPSWeek : ℚ) : ℝ)
  let dt := times - ((eph.t_oe : ℚ) : ℝ) + gw_diff
  let M := eph.M_0 + sqrt_mu_A * dt + eph.deltaN * dt
  let E := compute_ecc_scalar M eph.e
  let cos_E := Real.cos E
  let sin_E := Real.sin E
  let e_cos_E := 1 - eph.e * cos_E
  let sin_nu := Real.sqrt (1 - eph.e ^ 2) * (sin_E / e_cos_E)
  let cos_nu := (cos_E - eph.e) / e_cos_E
  let nu := np_arctan2 sin_nu cos_nu
  let phi_0 := nu + eph.omega
  let cos_to_phi := Real.cos (2 * phi_refine eph phi_0 4)
  let sin_to_phi := Real.sin (2 * phi_refine eph phi_0 4)
  let phi := phi_refine eph phi_0 5
  let omega_corr := eph.OmegaDot * dt
  let omega_lan := eph.Omega_0 - OMEGAEDOT * (times + gw_diff) + omega_corr
  let r := sma * e_cos_E + (eph.C_rc * cos_to_phi + eph.C_rs * sin_to_phi)
  let dE := (sqrt_mu_A + eph.deltaN) / e_cos_E
  let dphi := Real.sqrt (1 - eph.e ^ 2) * dE / e_cos_E
  let dr := sma * eph.e * dE * sin_E
           + 2 * (eph.C_rs * cos_to_phi - eph.C_rc * sin_to_phi) * dphi
  let i_incl := eph.i_0 + (eph.C_ic * cos_to_phi + eph.C_is * sin_to_phi + eph.IDOT * dt)
  let di := 2 * (eph.C_is * cos_to_phi - eph.C_ic * sin_to_phi) * dphi + eph.IDOT
  let xp := r * Real.cos phi
  let yp := r * Real.sin phi
  let du := (1 + 2 * (eph.C_us * cos_to_phi - eph.C_uc * sin_to_phi)) * dphi
  let dxp := dr * Real.cos phi - r * Real.sin phi * du
  let dyp := dr * Real.sin phi + r * Real.cos phi * du
  let cos_omega := Real.cos omega_lan
  let sin_omega := Real.sin omega_lan
  let cos_i := Real.cos i_incl
  let sin_i := Real.sin i_incl
  let omega_dot := eph.OmegaDot - OMEGAEDOT
  { x := xp * cos_omega - yp * cos_i * sin_omega
    y := xp * sin_omega + yp * cos_i * cos_omega
    z := yp * sin_i
    vx := dxp * cos_omega - dyp * cos_i * sin_omega
          + yp * sin_omega * sin_i * di
          - (xp * sin_omega + yp * cos_i * cos_omega) * omega_dot
    vy := dxp * sin_omega + dyp * cos_i * cos_omega
          - yp * sin_i * cos_omega * di
          + (xp * cos_omega - yp * cos_i * sin_omega) * omega_dot
    vz := dyp * sin_i + yp * cos_i * di }

/-! ### Satellite location relative to the receiver
(core/measures.py, _find_sat_location lines 214-260, _find_delxyz_range
lines 263-290, expected_measures lines 112-172) -/

/-- An ECEF 3-vector. -/
abbrev Vec3 := ℝ × ℝ × ℝ

/-- Componentwise difference of 3-vectors. -/
noncomputable def v3sub (a b : Vec3) : Vec3 :=
  (a.1 - b.1, a.2.1 - b.2.1, a.2.2 - b.2.2)

/-- Dot product of 3-vectors. -/
noncomputable def v3dot (a b : Vec3) : ℝ :=
  a.1 * b.1 + a.2.1 * b.2.1 + a.2.2 * b.2.2

/-- Euclidean norm of a 3-vector. -/
noncomputable def v3norm (a : Vec3) : ℝ :=
  Real.sqrt (a.1 ^ 2 + a.2.1 ^ 2 + a.2.2 ^ 2)

/-- Position components of a satellite row. -/
def satPos (s : SatPV) : Vec3 := (s.x, s.y, s.z)

/-- Velocity components of a satellite row. -/
def satVel (s : SatPV) : Vec3 := (s.vx, s.vy, s.vz)

/-- The per-satellite Earth-rotation correction of lines 256-259 of
core/measures.py, exactly as written:
  del_x = OMEGAEDOT * x * t_corr;  x = x + del_x
  del_y = OMEGAEDOT * y * t_corr;  y = y + del_y. -/
noncomputable def earth_rot_shift (t_corr x y : ℝ) : ℝ × ℝ :=
  (x + OMEGAEDOT * x * t_corr, y + OMEGAEDOT * y * t_corr)

/-- A rotation of the (x, y) components about the Z axis by angle theta,
as the spec and the claim describe the transit-time frame correction. -/
noncomputable def z_rotation (theta x y : ℝ) : ℝ × ℝ :=
  (x * Real.cos theta + y * Real.sin theta,
   y * Real.cos theta - x * Real.sin theta)

/-- The shared tail of _find_sat_location (lines 252-260), which is the
whole body on the precomputed-satellite-state path: difference vectors
and ranges from the given table, then the Earth-rotation correction
written into the x and y columns of that same table.  The returned table
is the object the caller passed in (pandas mutates it in place), so it is
threaded as state. -/
noncomputable def find_sat_location_given (pvs : List SatPV) (rx : Vec3) :
    List SatPV × List Vec3 × List ℝ :=
  let del_pos := pvs.map (fun s => v3sub (satPos s) rx)
  let true_range := del_pos.map v3norm
  let t_corr := true_range.map (fun r => r / C_gps)
  let moved := List.zipWith (fun (s : SatPV) t =>
      let xy := earth_rot_shift t s.x s.y
      { s with x := xy.1, y := xy.2 }) pvs t_corr
  (moved, del_pos, true_range)

/-- The ephemeris path of _find_sat_location (lines 243-260): a first
propagation at (gpstime - nominal transit time), a transit time from the
approximate ranges, a second propagation at (gpstime - transit time), and
then the shared tail above. -/
noncomputable def find_sat_location_ephem (gpsweek : ℤ) (gpstime : ℝ)
    (ephem : List EphemRec) (rx : Vec3) : List SatPV × List Vec3 × List ℝ :=
  let pv0 := ephem.map (fun eph => find_sat eph (gpstime - T_TRANS) gpsweek)
  let range0 := (pv0.map (fun s => v3sub (satPos s) rx)).map v3norm
  let t_corr := range0.map (fun r => r / C_gps)
  let pv1 := List.zipWith (fun eph t => find_sat eph (gpstime - t) gpsweek) ephem t_corr
  find_sat_location_given pv1 rx

/-- The receiver state: ECEF position, ECEF velocity, clock bias [m] and
clock drift [m/s]; a single sample, as the model requires. -/
structure RxState where
  pos : Vec3
  vel : Vec3
  clk_bias : ℝ
  clk_drift : ℝ

/-- Embeds expected_measures on the precomputed-satellite-state path
(core/measures.py lines 148-172): pseudorange = true_range + bias,
prange_rate = sum(del_vel*del_pos)/true_range + b_dot,
doppler = -(F1/C)*prange_rate; returns the (prange, doppler) rows. -/
noncomputable def expected_measures (rx : RxState) (pvs : List SatPV) :
    List (ℝ × ℝ) :=
  let res := find_sat_location_given pvs rx.pos
  let sat_vel := res.1.map satVel
  let prange := res.2.2.map (fun r => r + rx.clk_bias)
  let del_vel := sat_vel.map (fun v => v3sub v rx.vel)
  let prange_rate := List.zipWith
      (fun (dvdp : Vec3 × Vec3) r => v3dot dvdp.1 dvdp.2 / r + rx.clk_drift)
      (del_vel.zip res.2.1) res.2.2
  let doppler := prange_rate.map (fun rate => -(F1_gps / C_gps) * rate)
  prange.zip doppler

/-- The expected measurements as the claim words them: per satellite,
pseudorange = geometric range + receiver clock bias, and
doppler = -(carrier frequency / speed of light) * (range-rate + clock
drift) with range-rate the dot product of the relative velocity with the
unit line-of-sight vector. -/
noncomputable def expected_measures_spec (rx : RxState) (pvs : List SatPV) :
    List (ℝ × ℝ) :=
  pvs.map (fun s =>
    let del_p := v3sub (satPos s) rx.pos
    let r := v3norm del_p
    let u : Vec3 := (del_p.1 / r, del_p.2.1 / r, del_p.2.2 / r)
    let rate := v3dot (v3sub (satVel s) rx.vel) u
    (r + rx.clk_bias, -(F1_gps / C_gps) * (rate + rx.clk_drift)))

/-! ### Satellite clock delay
(utils/gnss_models.py, _calculate_clock_delay lines 424-480; the
eccentric anomaly there comes from sv_models._compute_eccentric_anomaly,
which is not under src: its mean-anomaly computation is modelled from the
in-src analogue correct_pseudorange, core/measures.py lines 516-525,
which the spec describes the same way). -/

/-- Embeds _calculate_clock_delay: per satellite, the polynomial clock
terms at the (dead-code-guarded) wrapped offset from t_oc, plus the
relativistic term, minus TGD, all scaled by the speed of light.  The
gps-millis-to-(week, time-of-week) conversion is an external collaborator,
so the time of week is taken directly. -/
noncomputable def calculate_clock_delay (gps_tow : ℚ) (ephem : List EphemRec) :
    List ℝ :=
  let dts := t_offset_wrapped (ephem.map (fun eph => gps_tow - eph.t_oe))
  let toffs := t_offset_wrapped (ephem.map (fun eph => gps_tow - eph.t_oc))
  List.zipWith (fun (pr : EphemRec × ℚ) (toff : ℚ) =>
      let eph := pr.1
      let dt : ℝ := ((pr.2 : ℚ) : ℝ)
      let sqrt_mu_A := Real.sqrt MUEARTH * eph.sqrtA ^ (-3 : ℤ)
      let M := eph.M_0 + sqrt_mu_A * dt + eph.deltaN * dt
      let ecc_anom := compute_ecc_scalar M eph.e
      let t_off : ℝ := ((toff : ℚ) : ℝ)
      let corr_polynomial := eph.SVclockBias + eph.SVclockDrift * t_off
                             + eph.SVclockDriftRate * t_off ^ 2
      let corr_relativistic := F_const * eph.e * eph.sqrtA * Real.sin ecc_anom
      C_gps * (corr_polynomial - eph.TGD + corr_relativistic))
    (ephem.zip dts) toffs

/-! ### The correction pipeline
(utils/gnss_models.py, calculate_pseudorange_corr lines 341-421)

The tropospheric and ionospheric sub-models call the coordinate
conversions ecef_to_geodetic and ecef_to_el_az, external collaborators
not under src; the two sub-models are therefore passed as function
arguments, and the pipeline itself — the dispatch on missing inputs that
the claim is about — is embedded exactly. -/

/-- The broadcast Klobuchar parameters (2x4 array: alphas and betas). -/
structure IonoParams where
  alpha : List ℝ
  beta : List ℝ

/-- The only exception the pipeline can raise: the assert at lines
392-393 when neither ephemeris nor satellite states are given. -/
inductive PyError where
  | assertionError
deriving DecidableEq

/-- The result of calculate_pseudorange_corr: the three per-satellite
correction arrays and whether each missing-input warning was emitted. -/
structure CorrectionOutput where
  clock_corr : List ℝ
  tropo_delay : List ℝ
  iono_delay : List ℝ
  clock_warn : Bool
  tropo_warn : Bool
  iono_warn : Bool

/-- The satellite count of lines 389-394: the length of the ephemeris
when given, else of the satellite-state table. -/
def num_sats (ephem : Option (List EphemRec)) (sv_posvel : Option (List SatPV)) : ℕ :=
  match ephem with
  | some eph => eph.length
  | none => (sv_posvel.getD []).length

/-- Embeds calculate_pseudorange_corr.  `tropoFn` and `ionoFn` stand for
_calculate_tropo_delay and _calculate_iono_delay (their geometry is
external to src); each branch mirrors the Python:
  - no ephemeris and no satellite states: AssertionError;
  - no ephemeris: zero clock corrections and a warning;
  - no receiver state: zero tropospheric delays and a warning;
  - no ionospheric parameters or no receiver state: zero ionospheric
    delays and a warning;
  - otherwise each sub-model is computed. -/
noncomputable def calculate_pseudorange_corr (gps_tow : ℚ)
    (state : Option RxState) (ephem : Option (List EphemRec))
    (sv_posvel : Option (List SatPV)) (iono_params : Option IonoParams)
    (tropoFn : ℚ → Vec3 → Option (List EphemRec) → Option (List SatPV) → List ℝ)
    (ionoFn : ℚ → IonoParams → Vec3 → Option (List EphemRec) → Option (List SatPV) → List ℝ) :
    Except PyError CorrectionOutput :=
  let rx_ecef := state.map (fun st => st.pos)
  match ephem, sv_posvel with
  | none, none => Except.error PyError.assertionError
  | eph?, sv? =>
    let satellites := num_sats eph? sv?
    let clock := match eph? with
      | some eph => (calculate_clock_delay gps_tow eph, false)
      | none => (List.replicate satellites (0 : ℝ), true)
    let tropo := match rx_ecef with
      | some rx => (tropoFn gps_tow rx eph? sv?, false)
      | none => (List.replicate satellites (0 : ℝ), true)
    let iono := match iono_params, rx_ecef with
      | some ip, some rx => (ionoFn gps_tow ip rx eph? sv?, false)
      | _, _ => (List.replicate satellites (0 : ℝ), true)
    Except.ok
      { clock_corr := clock.1
        tropo_delay := tropo.1
        iono_delay := iono.1
        clock_warn := clock.2
        tropo_warn := tropo.2
        iono_warn := iono.2 }

/-! ### The Klobuchar slant factor
(utils/gnss_models.py, _calculate_iono_delay line 647) -/

/-- Embeds line 647: slant_fact = 1.0 + 5.16e-1 * (1.6755 - el_r)**3,
with the elevation in radians. -/
noncomputable def iono_slant_factor (el_r : ℝ) : ℝ :=
  1.0 + 5.16e-1 * (1.6755 - el_r) ^ 3

/-! ### Simulated measurements and their random source
(core/measures.py simulate_measures lines 53-110; utils/gnss_models.py
simulate_measures lines 152-232)

A numpy Generator is modelled as a stream of values with a position: each
standard_normal(n) call returns the next n values and advances the
position.  The generator that core/measures creates internally with
default_rng(), and the one gnss_models creates when the caller passes
rng=None, are non-injected sources; they are modelled as an explicit
`entropy` argument so that dependence on them is expressible. -/

/-- A random source: a stream of draws and the position of the next one. -/
structure RandomSource where
  stream : ℕ → ℝ
  pos : ℕ

/-- rng.standard_normal(n): the next n draws and the advanced source. -/
noncomputable def standard_normal (g : RandomSource) (n : ℕ) :
    List ℝ × RandomSource :=
  ((List.range n).map (fun i => g.stream (g.pos + i)),
   { stream := g.stream, pos := g.pos + n })

/-- Embeds the noise stage of core/measures.simulate_measures (lines
101-108): a generator created inside the function (never supplied by the
caller) adds prange_sigma- and doppler_sigma-scaled draws to the expected
pseudoranges and dopplers. -/
noncomputable def simulate_measures_core (prange doppler : List ℝ)
    (prange_sigma doppler_sigma : ℝ) (entropy : RandomSource) :
    List ℝ × List ℝ :=
  let M := prange.length
  let d1 := standard_normal entropy M
  let d2 := standard_normal d1.2 M
  (List.zipWith (fun p v => p + prange_sigma * v) prange d1.1,
   List.zipWith (fun d v => d + doppler_sigma * v) doppler d2.1)

/-- Embeds the noise stage of utils/gnss_models.simulate_measures (lines
200-230): the caller may supply the source; when rng is None a fresh
internal generator (the entropy argument) is used; noise defaults are
sigma = 6 m for pseudorange and 1 m/s for doppler. -/
noncomputable def simulate_measures_gnss (est_pr est_dop : List ℝ)
    (noise_dict : Option (ℝ × ℝ)) (rng : Option RandomSource)
    (entropy : RandomSource) : List ℝ × List ℝ :=
  let g0 := match rng with
    | some g => g
    | none => entropy
  let sigmas := noise_dict.getD (6, 1)
  let num_svs := est_pr.length
  let d1 := standard_normal g0 num_svs
  let d2 := standard_normal d1.2 num_svs
  (List.zipWith (fun p v => p + sigmas.1 * v) est_pr d1.1,
   List.zipWith (fun d v => d + sigmas.2 * v) est_dop d2.1)

/-- The noise stage as the claim words it: every draw taken from the
caller-supplied source g, pseudorange draws first, doppler draws next. -/
noncomputable def simulate_noise_from_source (est_pr est_dop : List ℝ)
    (sigmas : ℝ × ℝ) (g : RandomSource) : List ℝ × List ℝ :=
  let n := est_pr.length
  (List.zipWith (fun p i => p + sigmas.1 * g.stream (g.pos + i))
      est_pr (List.range n),
   List.zipWith (fun d i => d + sigmas.2 * g.stream (g.pos + n + i))
      est_dop (List.range n))

/-! ## Helper lemmas -/

/-- A Python boolean read as a number is at most 1. -/
theorem py_bool_to_rat_le_one (b : Bool) : py_bool_to_rat b ≤ 1 := by
  cases b <;> norm_num [py_bool_to_rat]

/-- The norm of a vector on the x axis with nonnegative coordinate. -/
theorem v3norm_axis (a : ℝ) (ha : 0 ≤ a) : v3norm (a, 0, 0) = a := by
  have h : a ^ 2 + (0 : ℝ) ^ 2 + (0 : ℝ) ^ 2 = a ^ 2 := by ring
  rw [v3norm]
  simp only [h]
  exact Real.sqrt_sq ha

/-! ## Claim theorems -/

/-- Claim C1: the claim states that the elapsed time since the ephemeris
reference epoch equals (times - t_oe) plus
(mod(gpsweek,1024) - mod(GPSWeek,1024)) * 604800.  The code binds the
factor 604800 to the second modulus only, so at gpsweek = GPSWeek = 2000
with times = t_oe the code produces -590283824 s where the claim (and the
week-rollover intent documented in the source) gives 0. -/
theorem find_sat_week_rollover_dt :
    elapsed_dt 0 0 2000 2000 = -590283824 ∧ elapsed_dt_spec 0 0 2000 2000 = 0 := by
  have h : (2000 : ℤ) % 1024 = 976 := by decide
  constructor
  · simp [elapsed_dt, gpsweek_diff, h]
    norm_num
  · simp [elapsed_dt_spec, gpsweek_diff_spec, h]

/-- Claim C6: the half-week wrap of the clock time offset is dead code:
the guard compares the boolean np.abs(t_offset).any(), read as 0 or 1,
with 302400, which is always false.  So every offset array passes through
unwrapped; at offset 400000 s the code keeps 400000 while the claimed
wrap yields -204800. -/
theorem clock_delay_halfweek_wrap_dead :
    (∀ l : List ℚ, t_offset_wrapped l = l)
    ∧ t_offset_wrapped [400000] = [400000]
    ∧ t_offset_wrap_spec 400000 = -204800 := by
  have hdead : ∀ l : List ℚ, t_offset_wrapped l = l := by
    intro l
    rw [t_offset_wrapped]
    split
    · next hcond =>
      exact absurd hcond (by
        have := py_bool_to_rat_le_one (np_abs_any l)
        push_neg
        linarith)
    · rfl
  refine ⟨hdead, hdead [400000], ?_⟩
  rw [t_offset_wrap_spec]
  norm_num [np_sign]

/-- Counterexample to claim C9: at elevation pi/2 radians (the overhead
satellite) the Klobuchar slant factor of the code is not exactly 1.0,
because (1.6755 - pi/2)^3 is strictly positive. -/
theorem iono_slant_overhead_not_one :
    iono_slant_factor (Real.pi / 2) ≠ 1 := by
  have hu : Real.pi < 3.141593 := Real.pi_lt_d6
  have hx0 : (0 : ℝ) < 1.6755 - Real.pi / 2 := by nlinarith
  have hpos : (0 : ℝ) < 5.16e-1 * (1.6755 - Real.pi / 2) ^ 3 := by positivity
  rw [iono_slant_factor]
  intro h
  nlinarith

/-- Claim C9 (amended): at elevation pi/2 the slant factor equals
1 + 0.516 * (1.6755 - pi/2)^3, which is strictly greater than 1 and less
than 1.001 (about 1.000592), not exactly 1. -/
theorem iono_slant_overhead_bounds :
    1 < iono_slant_factor (Real.pi / 2)
    ∧ iono_slant_factor (Real.pi / 2) < 1.001 := by
  have hl : 3.141592 < Real.pi := Real.pi_gt_d6
  have hu : Real.pi < 3.141593 := Real.pi_lt_d6
  have hx0 : (0 : ℝ) < 1.6755 - Real.pi / 2 := by nlinarith
  have hx2 : (1.6755 : ℝ) - Real.pi / 2 < 0.104705 := by nlinarith
  constructor
  · have hpos : (0 : ℝ) < 5.16e-1 * (1.6755 - Real.pi / 2) ^ 3 := by positivity
    rw [iono_slant_factor]
    linarith
  · have hcube : (1.6755 - Real.pi / 2) ^ 3 < 0.104705 ^ 3 :=
      pow_lt_pow_left₀ hx2 (le_of_lt hx0) (by norm_num)
    rw [iono_slant_factor]
    nlinarith

/-- Counterexample to claim C5: the convergence test of the code is the
signed comparison any(dE > tol); on the final-step array [-1] the code
does not warn although the magnitude of the step exceeds the tolerance. -/
theorem newton_warn_magnitude_counterexample :
    ¬ newton_warn_cond [(-1 : ℝ)] ∧ newton_warn_claimed [(-1 : ℝ)] := by
  constructor
  · rintro ⟨d, hd, hgt⟩
    simp only [List.mem_singleton] at hd
    rw [hd] at hgt
    norm_num at hgt
  · refine ⟨-1, by simp, ?_⟩
    rw [abs_neg, abs_one]
    norm_num

/-- Claim C5 (amended): after the fixed 10 iterations the solver warns
exactly when some component of the final Newton step exceeds +1e-5 (a
signed test — whenever it warns, the magnitude does exceed the tolerance,
but a negative step of large magnitude does not warn), and it returns the
iterated eccentric anomaly in every case, warning or not, with no
exception. -/
theorem ecc_anomaly_warning_signed :
    (∀ dEs : List ℝ, newton_warn_cond dEs → newton_warn_claimed dEs)
    ∧ (∀ Ms es : List ℝ,
        (compute_eccentric_anomoly Ms es).1 = (kepler_vec_iter Ms es 10).1) := by
  constructor
  · rintro dEs ⟨d, hd, hgt⟩
    exact ⟨d, hd, lt_of_lt_of_le hgt (le_abs_self d)⟩
  · intro Ms es
    rfl

/-- Witness for the amended claim C5, at the concrete final-step array
[1]: the code warns there, and indeed the magnitude exceeds the
tolerance. -/
theorem ecc_anomaly_warning_signed_witness :
    newton_warn_cond [(1 : ℝ)] ∧ newton_warn_claimed [(1 : ℝ)] := by
  have h : newton_warn_cond [(1 : ℝ)] := ⟨1, by simp, by norm_num⟩
  exact ⟨h, ecc_anomaly_warning_signed.1 [(1 : ℝ)] h⟩

/-- Claim C2: the code's transit-time frame correction adds
OMEGAEDOT*x*t to x and OMEGAEDOT*y*t to y — a radial scaling of the
xy components, not a rotation about the Z axis: for a satellite at ECEF
x = 26000000 m, y = 0 and transit time 0.07 s, no rotation angle
reproduces the code's output, since any Z rotation preserves the xy norm
while the code enlarges it. -/
theorem earth_rotation_correction_not_a_rotation :
    ∀ theta : ℝ, z_rotation theta 26000000 0 ≠ earth_rot_shift 0.07 26000000 0 := by
  intro theta h
  have h1 := congrArg Prod.fst h
  simp only [z_rotation, earth_rot_shift, OMEGAEDOT] at h1
  norm_num at h1
  nlinarith [Real.cos_le_one theta]

/-- Counterexample to claim C8: in core/measures.simulate_measures the
generator is created inside the function and cannot be supplied; two runs
with identical inputs but different internal generator streams give
different pseudoranges, so the outputs are not a function of the
caller-visible inputs. -/
theorem simulate_core_hidden_rng :
    simulate_measures_core [(100 : ℝ)] [50] 6 0.1 ⟨fun _ => 0, 0⟩
      ≠ simulate_measures_core [(100 : ℝ)] [50] 6 0.1 ⟨fun _ => 1, 0⟩ := by
  intro h
  have h1 := congrArg (fun p => p.1) h
  simp [simulate_measures_core, standard_normal, List.range_succ] at h1

/-- Claim C8 (amended): in utils/gnss_models.simulate_measures, when the
caller supplies the random source, every draw comes from it — the result
does not depend on the internal fallback generator at all, and equals the
expected measurements plus sigma-scaled draws taken in order from the
supplied source — so two runs with the same source state and inputs are
identical.  (When rng is omitted, and always in core/measures, an
internal generator is used instead.) -/
theorem simulate_gnss_injected_source :
    ∀ (est_pr est_dop : List ℝ) (noise_dict : Option (ℝ × ℝ))
      (g entropy1 entropy2 : RandomSource),
      simulate_measures_gnss est_pr est_dop noise_dict (some g) entropy1
        = simulate_measures_gnss est_pr est_dop noise_dict (some g) entropy2
      ∧ simulate_measures_gnss est_pr est_dop noise_dict (some g) entropy1
        = simulate_noise_from_source est_pr est_dop (noise_dict.getD (6, 1)) g := by
  intro est_pr est_dop noise_dict g e1 e2
  refine ⟨rfl, ?_⟩
  simp only [simulate_measures_gnss, simulate_noise_from_source, standard_normal,
    List.zipWith_map_right]

/-- The vectorized Newton-Raphson loop agrees, per satellite, with the
scalar one: running the elementwise loop on the component arrays of a
list of (M, e) pairs produces exactly the per-pair scalar results. -/
theorem kepler_vec_iter_eq_map (ps : List (ℝ × ℝ)) (n : ℕ) :
    kepler_vec_iter (ps.map Prod.fst) (ps.map Prod.snd) n
      = (ps.map (fun p => (kepler_iter p.1 p.2 n).1),
         ps.map (fun p => (kepler_iter p.1 p.2 n).2)) := by
  induction n with
  | zero =>
    simp only [kepler_vec_iter, kepler_iter, List.map_map, Function.comp_def,
      Prod.mk.injEq]
  | succ n ih =>
    simp only [kepler_vec_iter, ih, kepler_iter, np_add, np_sub, np_mul, np_div,
      np_neg, np_sub_scalar, List.map_map, List.zipWith_map, List.zipWith_same,
      Function.comp]

/-- Claim C4: the Kepler solver runs exactly 10 Newton-Raphson iterations
from the start value E0 = M, each replacing E by
E + (M - E + e sin E)/(1 - e cos E), with no early exit, and each (M, e)
pair of the input arrays is solved independently of the others. -/
theorem kepler_solver_fixed_ten_newton :
    (∀ ps : List (ℝ × ℝ),
        (kepler_vec_iter (ps.map Prod.fst) (ps.map Prod.snd) 10).1
          = ps.map (fun p => compute_ecc_scalar p.1 p.2))
    ∧ (∀ M e : ℝ,
        compute_ecc_scalar M e = (fun E => kepler_claim_step M e E)^[10] M) := by
  constructor
  · intro ps
    rw [kepler_vec_iter_eq_map]
    rfl
  · intro M e
    have hstep : ∀ E : ℝ,
        E + -(M - E + e * Real.sin E) / (e * Real.cos E - 1)
          = kepler_claim_step M e E := by
      intro E
      rw [kepler_claim_step]
      have h : (1 : ℝ) - e * Real.cos E = -(e * Real.cos E - 1) := by ring
      rw [h, div_neg, neg_div]
    have hiter : ∀ n : ℕ,
        (kepler_iter M e n).1 = (fun E => kepler_claim_step M e E)^[n] M := by
      intro n
      induction n with
      | zero => rfl
      | succ n ih =>
        rw [Function.iterate_succ_apply']
        show (kepler_iter M e n).1
              + -(M - (kepler_iter M e n).1 + e * Real.sin (kepler_iter M e n).1)
                / (e * Real.cos (kepler_iter M e n).1 - 1)
            = kepler_claim_step M e ((fun E => kepler_claim_step M e E)^[n] M)
        rw [hstep, ih]
    exact hiter 10

/-- Claim C3: for every (single-sample) receiver state and satellite set,
the expected measurements are, per satellite, pseudorange = geometric
range + receiver clock bias with nothing else folded in, and
doppler = -(F1/C) * (range-rate + clock drift) with range-rate the dot
product of the relative velocity with the unit line-of-sight vector. -/
theorem expected_measures_matches_spec :
    ∀ (rx : RxState) (pvs : List SatPV),
      expected_measures rx pvs = expected_measures_spec rx pvs := by
  intro rx pvs
  induction pvs with
  | nil => rfl
  | cons s rest ih =>
    simp only [expected_measures, expected_measures_spec, find_sat_location_given,
      List.map_cons, List.zipWith_cons_cons, List.zip_cons_cons, satVel,
      List.cons.injEq] at ih ⊢
    refine ⟨?_, ih⟩
    simp only [Prod.mk.injEq, v3dot, v3sub, satPos, satVel, true_and]
    ring

/-- Claim C10: on the precomputed-satellite-state path, the
Earth-rotation shift (OMEGAEDOT*x*t added to x and OMEGAEDOT*y*t to y,
with t the per-satellite range over the speed of light) is written into
the caller's table: the table the caller holds after the call is the
shifted one, a second identical call computes its ranges from those
already-shifted positions, and concretely, for a satellite at
(C_gps, 0, 0) seen from the origin, the second call returns a different
range than the first. -/
theorem find_sat_location_inplace_shift :
    (∀ (pvs : List SatPV) (rx : Vec3),
        (find_sat_location_given pvs rx).1
          = pvs.map (fun s =>
              let t := v3norm (v3sub (satPos s) rx) / C_gps
              { s with x := s.x + OMEGAEDOT * s.x * t,
                       y := s.y + OMEGAEDOT * s.y * t }))
    ∧ (∀ (pvs : List SatPV) (rx : Vec3),
        (find_sat_location_given (find_sat_location_given pvs rx).1 rx).2.2
          = ((find_sat_location_given pvs rx).1).map
              (fun s => v3norm (v3sub (satPos s) rx)))
    ∧ (find_sat_location_given
          (find_sat_location_given [⟨C_gps, 0, 0, 0, 0, 0⟩] ((0:ℝ), (0:ℝ), (0:ℝ))).1
          ((0:ℝ), (0:ℝ), (0:ℝ))).2.2
        ≠ (find_sat_location_given [⟨C_gps, 0, 0, 0, 0, 0⟩] ((0:ℝ), (0:ℝ), (0:ℝ))).2.2 := by
  have hC : (0 : ℝ) < C_gps := by norm_num [C_gps]
  have homega : (0 : ℝ) < OMEGAEDOT := by norm_num [OMEGAEDOT]
  refine ⟨?_, ?_, ?_⟩
  · intro pvs rx
    simp only [find_sat_location_given, earth_rot_shift, List.map_map,
      List.zipWith_map_right, List.zipWith_same, Function.comp_def]
  · intro pvs rx
    simp only [find_sat_location_given, List.map_map, Function.comp_def]
  · have hnorm : v3norm (C_gps - 0, (0:ℝ) - 0, (0:ℝ) - 0) = C_gps := by
      simp only [sub_zero]
      exact v3norm_axis C_gps (le_of_lt hC)
    have hmoved : (find_sat_location_given [⟨C_gps, 0, 0, 0, 0, 0⟩]
          ((0:ℝ), (0:ℝ), (0:ℝ))).1 = [⟨C_gps * (1 + OMEGAEDOT), 0, 0, 0, 0, 0⟩] := by
      simp only [find_sat_location_given, earth_rot_shift, satPos, v3sub,
        List.map_cons, List.map_nil, List.zipWith_cons_cons, List.zipWith_nil_right,
        hnorm]
      rw [div_self (ne_of_gt hC)]
      simp only [List.cons.injEq, and_true, SatPV.mk.injEq]
      norm_num
      ring
    have hfirst : (find_sat_location_given [⟨C_gps, 0, 0, 0, 0, 0⟩]
          ((0:ℝ), (0:ℝ), (0:ℝ))).2.2 = [C_gps] := by
      simp only [find_sat_location_given, satPos, v3sub, List.map_cons,
        List.map_nil, hnorm]
    have hnorm2 : v3norm (C_gps * (1 + OMEGAEDOT) - 0, (0:ℝ) - 0, (0:ℝ) - 0)
        = C_gps * (1 + OMEGAEDOT) := by
      simp only [sub_zero]
      exact v3norm_axis _ (by positivity)
    have hsecond : (find_sat_location_given [⟨C_gps * (1 + OMEGAEDOT), 0, 0, 0, 0, 0⟩]
          ((0:ℝ), (0:ℝ), (0:ℝ))).2.2 = [C_gps * (1 + OMEGAEDOT)] := by
      simp only [find_sat_location_given, satPos, v3sub, List.map_cons,
        List.map_nil, hnorm2]
    rw [hmoved, hfirst, hsecond]
    intro h
    simp only [List.cons.injEq, and_true] at h
    nlinarith

/-- Counterexample to claim C7: a call to the correction pipeline with
neither ephemeris nor precomputed satellite states raises an assertion
error instead of degrading, so the claim does not hold for every call. -/
theorem pseudorange_corr_no_sat_info_error :
    calculate_pseudorange_corr 0 none none none none
        (fun _ _ _ _ => []) (fun _ _ _ _ _ => [])
      = Except.error PyError.assertionError := rfl

/-- Claim C7 (amended): every call to the correction pipeline either
supplies neither ephemeris nor satellite states and fails with an
assertion error, or returns without exception, with each sub-model whose
required input is absent (ephemeris for the clock term, receiver state
for the tropospheric term, ionospheric parameters or receiver state for
the ionospheric term) producing an all-zero array of length equal to the
number of satellites together with a warning, while each sub-model whose
inputs are available is computed. -/
theorem pseudorange_corr_graceful_degradation
    (gps_tow : ℚ) (state : Option RxState) (ephem : Option (List EphemRec))
    (sv_posvel : Option (List SatPV)) (iono_params : Option IonoParams)
    (tropoFn : ℚ → Vec3 → Option (List EphemRec) → Option (List SatPV) → List ℝ)
    (ionoFn : ℚ → IonoParams → Vec3 → Option (List EphemRec) → Option (List SatPV) → List ℝ) :
    (ephem = none ∧ sv_posvel = none
      ∧ calculate_pseudorange_corr gps_tow state ephem sv_posvel iono_params
          tropoFn ionoFn = Except.error PyError.assertionError)
    ∨ (∃ out : CorrectionOutput,
        calculate_pseudorange_corr gps_tow state ephem sv_posvel iono_params
            tropoFn ionoFn = Except.ok out
        ∧ (ephem = none →
            out.clock_corr = List.replicate (num_sats ephem sv_posvel) 0
            ∧ out.clock_warn = true)
        ∧ (∀ eph, ephem = some eph →
            out.clock_corr = calculate_clock_delay gps_tow eph
            ∧ out.clock_warn = false)
        ∧ (state = none →
            out.tropo_delay = List.replicate (num_sats ephem sv_posvel) 0
            ∧ out.tropo_warn = true)
        ∧ (∀ st, state = some st →
            out.tropo_delay = tropoFn gps_tow st.pos ephem sv_posvel
            ∧ out.tropo_warn = false)
        ∧ ((iono_params = none ∨ state = none) →
            out.iono_delay = List.replicate (num_sats ephem sv_posvel) 0
            ∧ out.iono_warn = true)
        ∧ (∀ ip st, iono_params = some ip → state = some st →
            out.iono_delay = ionoFn gps_tow ip st.pos ephem sv_posvel
            ∧ out.iono_warn = false)) := by
  rcases ephem with _ | eph
  · rcases sv_posvel with _ | sv
    · exact Or.inl ⟨rfl, rfl, rfl⟩
    · right
      rcases state with _ | st <;> rcases iono_params with _ | ip <;>
        exact ⟨_, rfl, by simp [calculate_pseudorange_corr]⟩
  · right
    rcases state with _ | st <;> rcases iono_params with _ | ip <;>
      exact ⟨_, rfl, by simp [calculate_pseudorange_corr]⟩

end GnssLibPy
